import Mathlib

/-!
Shallow embedding of `spotdl/utils/search.py` (query classification, song
refresh, library scan) together with proofs about the claims of the
specification.  Pure Python string operations are modelled over `List Char`;
fallible operations return `Except PyErr`; the external collaborators
(catalog client, file metadata reader, filesystem) are collected in an `Env`
record of oracle functions, modelled from the spec's external-interface
section.
-/

namespace SpotdlSearch

/-- Errors raised by the embedded code: `queryError` models the module's
`QueryError`, `valueError` models Python `ValueError` (e.g. `list.index`
misses), `externalError` models failures raised inside external
collaborators (catalog lookups, file I/O). -/
inductive PyErr where
  | queryError (msg : String)
  | valueError (msg : String)
  | externalError (msg : String)
deriving DecidableEq

/-- Variant tag of a song list, mirroring the classes
`Album`, `Playlist`, `Artist`, `Saved` of `spotdl.types`. -/
inductive SongListKind where
  | album
  | playlist
  | artist
  | saved
deriving DecidableEq

/-- Modelled from the spec: a CollectionRecord (`SongList` in the source,
whose class definitions are outside this module): variant tag, name, ordered
list of member URLs, and (for Playlist) author name and cover reference. -/
structure SongList where
  kind : SongListKind
  name : String
  urls : List String
  authorName : Option String
  coverUrl : Option String
deriving DecidableEq

/-- Modelled from the spec: a TrackRecord (`Song` in the source, whose class
definition is outside this module): catalog identifier (`url`), title,
artist list, album context, numbering fields, cover reference, secondary
download-source URL, optional collection back-reference and position. -/
structure Song where
  name : Option String
  artists : Option (List String)
  album_name : Option String
  album_artist : Option String
  track_number : Option Nat
  tracks_count : Option Nat
  disc_number : Option Nat
  disc_count : Option Nat
  cover_url : Option String
  url : Option String
  download_url : Option String
  song_list : Option SongList
  list_position : Option Nat
deriving DecidableEq

/-- A song with every field unresolved. -/
def Song.empty : Song :=
  ⟨none, none, none, none, none, none, none, none, none, none, none, none, none⟩

/-- Models `Song.from_missing_data(url=..., download_url=...)`: only the
primary identifier and the secondary download source are populated, the
remaining fields stay unresolved. -/
def Song.fromMissingUrlDownload (url download_url : String) : Song :=
  { Song.empty with url := some url, download_url := some download_url }

/-- Modelled from the spec: the external collaborators required by the
module (catalog client `resolveByIdentifier` / `searchByTerm` /
`fetchCollectionMembers`, file metadata reader, filesystem glob, save-file
reader).  Each field stands for one call the source delegates to code
outside this module. -/
structure Env where
  fromUrl : Option String → Except PyErr Song
  fromSearchTerm : String → Except PyErr Song
  listFromSearchTerm : String → List Song
  playlistFromUrl : String → Except PyErr SongList
  albumFromUrl : String → Except PyErr SongList
  artistFromUrl : String → Except PyErr SongList
  albumFromSearchTerm : String → Except PyErr SongList
  savedFromUrl : String → Except PyErr SongList
  readSaveFile : String → Except PyErr (List Song)
  fetchMembers : SongList → List Song
  getFileMetadata : String → Option Song
  glob : String → String → List String

/-- Whether `needle` occurs at the start of `hay` (helper for the substring
test). -/
def charsHasStart : List Char → List Char → Bool
  | [], _ => true
  | _ :: _, [] => false
  | a :: as, b :: bs => a == b && charsHasStart as bs

/-- Whether `needle` occurs anywhere in the character list, mirroring the
Python substring test `needle in hay`. -/
def charsContains (needle : List Char) : List Char → Bool
  | [] => needle.isEmpty
  | c :: rest => charsHasStart needle (c :: rest) || charsContains needle rest

/-- Python `pattern in s` on strings. -/
def strContains (s pattern : String) : Bool :=
  charsContains pattern.data s.data

/-- Python `s.endswith(suffix)`. -/
def strEndsWith (s suf : String) : Bool :=
  suf.data.isSuffixOf s.data

/-- Splits a character list on every occurrence of a separator character,
mirroring Python `str.split(sep)` for a one-character separator (empty
fragments are kept). -/
def splitChars (sep : Char) : List Char → List (List Char)
  | [] => [[]]
  | c :: rest =>
    match splitChars sep rest with
    | [] => [[]]
    | g :: gs => if c == sep then [] :: g :: gs else (c :: g) :: gs

/-- Python `s.split(sep)` for a one-character separator. -/
def pySplit (s : String) (sep : Char) : List String :=
  (splitChars sep s.data).map String.mk

/-- Line 95-101 of `search.py`, with Python operator precedence kept as
written: `A or B and C and D and E` parses as `A or (B and C and D and E)`,
so any string containing `youtube.com/watch?v=` enters the paired-link
branch. -/
def pairedLinkCond (request : String) : Bool :=
  strContains request "youtube.com/watch?v=" ||
    (strContains request "youtu.be/" && strContains request "open.spotify.com" &&
      strContains request "track" && strContains request "|")

/-- Line 103-108 of `search.py`: the validation of the split paired link,
again with Python precedence (`F or G and H or I`).  Only the first two
fragments are inspected. -/
def pairedLinkBad (request : String) : Bool :=
  let split_urls := pySplit request '|'
  decide (split_urls.length ≤ 1) ||
    (!strContains (split_urls.getD 0 "") "youtube" &&
      !strContains (split_urls.getD 0 "") "youtu.be") ||
    !strContains (split_urls.getD 1 "") "spotify"

/-- The fixed diagnostic message of the classification error. -/
def incorrectFormatMsg : String :=
  "Incorrect format used, please use \"YouTubeURL|SpotifyURL\""

/-- The per-request classification loop of `get_simple_songs`
(lines 94-134): accumulates direct songs and song lists in request order;
a raised error aborts the whole loop. -/
def getSimpleSongsLoop (env : Env) : List String → Except PyErr (List Song × List SongList)
  | [] => .ok ([], [])
  | request :: rest =>
    let step : Except PyErr (List Song × List SongList) :=
      if pairedLinkCond request then
        if pairedLinkBad request then
          .error (.queryError incorrectFormatMsg)
        else
          let split_urls := pySplit request '|'
          .ok ([Song.fromMissingUrlDownload (split_urls.getD 1 "") (split_urls.getD 0 "")], [])
      else if strContains request "open.spotify.com" && strContains request "track" then
        match env.fromUrl (some request) with
        | .error e => .error e
        | .ok s => .ok ([s], [])
      else if strContains request "open.spotify.com" && strContains request "playlist" then
        match env.playlistFromUrl request with
        | .error e => .error e
        | .ok l => .ok ([], [l])
      else if strContains request "open.spotify.com" && strContains request "album" then
        match env.albumFromUrl request with
        | .error e => .error e
        | .ok l => .ok ([], [l])
      else if strContains request "open.spotify.com" && strContains request "artist" then
        match env.artistFromUrl request with
        | .error e => .error e
        | .ok l => .ok ([], [l])
      else if strContains request "album:" then
        match env.albumFromSearchTerm request with
        | .error e => .error e
        | .ok l => .ok ([], [l])
      else if request == "saved" then
        match env.savedFromUrl request with
        | .error e => .error e
        | .ok l => .ok ([], [l])
      else if strEndsWith request ".spotdl" then
        match env.readSaveFile request with
        | .error e => .error e
        | .ok tracks => .ok (tracks, [])
      else
        match env.fromSearchTerm request with
        | .error e => .error e
        | .ok s => .ok ([s], [])
    match step with
    | .error e => .error e
    | .ok (songs, lists) =>
      match getSimpleSongsLoop env rest with
      | .error e => .error e
      | .ok (songs2, lists2) => .ok (songs ++ songs2, lists ++ lists2)

/-- The flattening of one song list (lines 144-150): every member that
already carries a back-reference is kept as-is, the others get the current
list attached. -/
def expandSongList (env : Env) (song_list : SongList) : List Song :=
  (env.fetchMembers song_list).map fun song =>
    match song.song_list with
    | some _ => song
    | none => { song with song_list := some song_list }

/-- `get_simple_songs` (lines 79-152): classify every request, then append
the flattened members of every collected song list. -/
def get_simple_songs (env : Env) (query : List String) : Except PyErr (List Song) :=
  match getSimpleSongsLoop env query with
  | .error e => .error e
  | .ok (songs, lists) => .ok (songs ++ (lists.map (expandSongList env)).flatten)

/-- One field of the merge `data.update((k, v) for k, v in new_data.items()
if v is not None)`: the fresh value wins when it is non-null, a null fresh
value never overwrites the existing one. -/
def mergeOpt {α : Type} (old new : Option α) : Option α :=
  match new with
  | some v => some v
  | none => old

/-- The field-wise merge of the fresh catalog record into the existing one
(lines 194-196 of `search.py`). -/
def mergeSong (s fresh : Song) : Song where
  name := mergeOpt s.name fresh.name
  artists := mergeOpt s.artists fresh.artists
  album_name := mergeOpt s.album_name fresh.album_name
  album_artist := mergeOpt s.album_artist fresh.album_artist
  track_number := mergeOpt s.track_number fresh.track_number
  tracks_count := mergeOpt s.tracks_count fresh.tracks_count
  disc_number := mergeOpt s.disc_number fresh.disc_number
  disc_count := mergeOpt s.disc_count fresh.disc_count
  cover_url := mergeOpt s.cover_url fresh.cover_url
  url := mergeOpt s.url fresh.url
  download_url := mergeOpt s.download_url fresh.download_url
  song_list := mergeOpt s.song_list fresh.song_list
  list_position := mergeOpt s.list_position fresh.list_position

/-- Index of the first occurrence of `x`, mirroring Python `list.index`
(which reports the first hit). -/
def listIndex (x : String) : List String → Option Nat
  | [] => none
  | y :: ys => if y == x then some 0 else (listIndex x ys).map (fun i => i + 1)

/-- Python `urls.index(song.url)`: raises `ValueError` when the element is
missing (also when the looked-up url is `None`, which never equals a
string). -/
def pyIndexOpt (xs : List String) (x : Option String) : Except PyErr Nat :=
  match x with
  | none => .error (.valueError "element is not in list")
  | some s =>
    match listIndex s xs with
    | some i => .ok i
    | none => .error (.valueError "element is not in list")

/-- The numbering block of `reinit_song` (lines 204-212), applied in source
order: track number, track count, album name, then the playlist-only
fields, then the disc fields. -/
def applyNumbering (data : Song) (song_list : SongList) (pos : Nat) : Song :=
  let d := { data with
    track_number := some (pos + 1),
    tracks_count := some song_list.urls.length,
    album_name := some song_list.name }
  let d2 :=
    if song_list.kind = SongListKind.playlist then
      { d with album_artist := song_list.authorName, cover_url := song_list.coverUrl }
    else d
  { d2 with disc_number := some 1, disc_count := some 1 }

/-- The song-list block of `reinit_song` (lines 198-212): the outer guard
tests the merged data, the inner guard the original song; the list object
is rebuilt with the original song's class over the merged json, and the
position is the index of the original song's url in the rebuilt list. -/
def reinitWithList (song data : Song) (playlist_numbering : Bool) : Except PyErr Song :=
  match data.song_list with
  | none => .ok data
  | some sl =>
    match song.song_list with
    | none => .ok data
    | some osl =>
      let song_list : SongList := { sl with kind := osl.kind }
      match pyIndexOpt song_list.urls song.url with
      | .error e => .error e
      | .ok pos =>
        let data2 := { data with song_list := some song_list, list_position := some pos }
        if playlist_numbering then .ok (applyNumbering data2 song_list pos)
        else .ok data2

/-- `reinit_song` (lines 181-215): fetch the fresh record by the song's
identifier, merge every non-null fresh field over the existing record, then
rebuild the collection context when present.  The source default for
`playlist_numbering` is `False`. -/
def reinit_song (env : Env) (song : Song) (playlist_numbering : Bool) : Except PyErr Song :=
  match env.fromUrl song.url with
  | .error e => .error e
  | .ok fresh => reinitWithList song (mergeSong song fresh) playlist_numbering

/-- The refresh loop of `parse_query` (lines 72-74): `executor.map` yields
the results in input order and re-raises the first failing call when its
result is retrieved, so the iteration is its sequential specification. -/
def refreshAll (env : Env) : List Song → Except PyErr (List Song)
  | [] => .ok []
  | s :: rest =>
    match reinit_song env s false with
    | .error e => .error e
    | .ok r =>
      match refreshAll env rest with
      | .error e => .error e
      | .ok rs => .ok (r :: rs)

/-- `parse_query` (lines 54-76): classify the query first, then refresh
every song through the worker pool.  `ThreadPoolExecutor` rejects a worker
count of zero with a `ValueError`; any positive count yields the same
deterministic result since each refresh only depends on its own record. -/
def parse_query (env : Env) (query : List String) (threads : Nat) : Except PyErr (List Song) :=
  match get_simple_songs env query with
  | .error e => .error e
  | .ok songs =>
    if threads == 0 then .error (.valueError "max_workers must be greater than 0")
    else refreshAll env songs

/-- Pointwise refresh of a song list, used to state order preservation of
`parse_query`. -/
def refreshEach (env : Env) (l : List Song) : List (Except PyErr Song) :=
  l.map (fun s => reinit_song env s false)

/-- `get_search_results` (line 40-51). -/
def get_search_results (env : Env) (search_term : String) : List Song :=
  env.listFromSearchTerm search_term

/-- `get_song_from_file_metadata` (lines 218-234): the tag reading and the
reconstruction through `Song.from_missing_data` are the external
`getFileMetadata` oracle. -/
def get_song_from_file_metadata (env : Env) (file : String) : Option Song :=
  env.getFileMetadata file

/-- Line 251 of `search.py`: everything before the first templated
placeholder marker (`{`, character 123) of the output template. -/
def baseDirOf (output : String) : String :=
  String.mk (output.data.takeWhile (fun c => c.toNat != 123))

/-- Concatenation of name fragments with a dot (character 46) between
them. -/
def joinDot : List (List Char) → List Char
  | [] => []
  | [x] => x
  | x :: xs => x ++ Char.ofNat 46 :: joinDot xs

/-- Modelled from the spec: `pathlib.Path(path).stem`, the final path
component without its last extension (a leading dot alone is not an
extension). -/
def pathStem (path : String) : String :=
  let name := (splitChars '/' path.data).getLastD []
  let parts := splitChars '.' name
  if parts.length ≤ 1 then String.mk name
  else if parts.length == 2 && (parts.headD []).isEmpty then String.mk name
  else String.mk (joinDot parts.dropLast)

/-- Python `known_songs.get(url)` over the association-list model of the
dictionary built by `gather_known_songs`. -/
def dictGet (d : List (Option String × List String)) (k : Option String) : Option (List String) :=
  match d with
  | [] => none
  | (k2, v) :: rest => if k2 = k then some v else dictGet rest k

/-- The dictionary update of lines 267-271: a fresh key is inserted at the
end (Python dicts keep insertion order), an existing key gets the path
appended to its list. -/
def dictAppend (d : List (Option String × List String)) (k : Option String) (path : String) :
    List (Option String × List String) :=
  match d with
  | [] => [(k, [path])]
  | (k2, ps) :: rest =>
    if k2 = k then (k2, ps ++ [path]) :: rest else (k2, ps) :: dictAppend rest k path

/-- Lines 256-265 of `gather_known_songs`: the song used for a scanned
file, from its embedded metadata when that yields an identifier, otherwise
the first filename-search result; `none` means the file is skipped. -/
def scanResolve (env : Env) (path : String) : Option Song :=
  match get_song_from_file_metadata env path with
  | some s => if s.url.isSome then some s else (get_search_results env (pathStem path)).head?
  | none => (get_search_results env (pathStem path)).head?

/-- The scan loop of `gather_known_songs` (lines 255-271). -/
def gatherLoop (env : Env) :
    List String → List (Option String × List String) → List (Option String × List String)
  | [], known => known
  | path :: rest, known =>
    match scanResolve env path with
    | none => gatherLoop env rest known
    | some song => gatherLoop env rest (dictAppend known song.url path)

/-- `gather_known_songs` (lines 237-273): glob the files below the base
directory of the output template and fold the scan loop over them. -/
def gather_known_songs (env : Env) (output : String) (output_format : String) :
    List (Option String × List String) :=
  gatherLoop env (env.glob (baseDirOf output) output_format) []

/-- A trivial concrete environment: search resolves a term to a song whose
identifier is the term itself, catalog resolution returns an empty fresh
record, everything else is inert.  Used to instantiate closed statements. -/
def envTriv : Env where
  fromUrl := fun _ => .ok Song.empty
  fromSearchTerm := fun t => .ok { Song.empty with url := some t }
  listFromSearchTerm := fun _ => []
  playlistFromUrl := fun _ => .error (.externalError "ext")
  albumFromUrl := fun _ => .error (.externalError "ext")
  artistFromUrl := fun _ => .error (.externalError "ext")
  albumFromSearchTerm := fun _ => .error (.externalError "ext")
  savedFromUrl := fun _ => .error (.externalError "ext")
  readSaveFile := fun _ => .error (.externalError "ext")
  fetchMembers := fun _ => []
  getFileMetadata := fun _ => none
  glob := fun _ _ => []

/-- Environment whose catalog resolution fails exactly for the identifier
`"b"`, to exercise a single failing refresh inside a batch. -/
def envFailB : Env :=
  { envTriv with
    fromUrl := fun u =>
      if u == some "b" then .error (.externalError "lookup failed") else .ok Song.empty }

/-- Fresh catalog record carrying a track number, as catalog data does for
a track that belongs to an album. -/
def freshTrackFive : Song :=
  { Song.empty with track_number := some 5 }

/-- Environment whose catalog resolution always returns
`freshTrackFive`. -/
def envTrackFive : Env :=
  { envTriv with fromUrl := fun _ => .ok freshTrackFive }

/-- Fresh catalog record carrying a title, to exercise the field merge. -/
def freshTitled : Song :=
  { Song.empty with name := some "Fresh Title" }

/-- Environment whose catalog resolution always returns `freshTitled`. -/
def envTitled : Env :=
  { envTriv with fromUrl := fun _ => .ok freshTitled }

/-- A three-member playlist used to instantiate the collection-numbering
claims. -/
def playlistC4 : SongList :=
  ⟨SongListKind.playlist, "My Playlist", ["u1", "u2", "u3"], some "Author", some "CoverRef"⟩

/-- A placeholder member of `playlistC4` whose identifier sits at position
1 of the membership. -/
def songInPlaylist : Song :=
  { Song.empty with url := some "u2", song_list := some playlistC4 }

/-- The record produced by a successful collection-aware refresh: the
field-wise merge, overridden by the reconstructed collection context and
the numbering block. -/
def reinitListResult (song fresh : Song) (osl : SongList) (pos : Nat) : Song :=
  applyNumbering
    { mergeSong song fresh with song_list := some osl, list_position := some pos } osl pos

/-- A record holding an identifier and a stale title, to exercise the
field merge. -/
def songTitledOld : Song :=
  { Song.empty with url := some "w", name := some "Old Title" }

/-- A placeholder record holding only an identifier. -/
def songUrlOnly : Song :=
  { Song.empty with url := some "u" }

/-- The record `songUrlOnly` refreshed against `envTrackFive`: the track
number arrives from the fresh catalog data. -/
def songUrlTrackFive : Song :=
  { Song.empty with url := some "u", track_number := some 5 }

/-- Whether a scanned file resolves to the given catalog identifier. -/
def scanKeyMatches (env : Env) (key : Option String) (p : String) : Bool :=
  decide ((scanResolve env p).map Song.url = some key)

@[simp]
theorem mergeOpt_some {α : Type} (o : Option α) (v : α) : mergeOpt o (some v) = some v := rfl

@[simp]
theorem mergeOpt_none {α : Type} (o : Option α) : mergeOpt o none = o := rfl

/-- C1: the paired-link directive with the video URL first and the catalog
URL second classifies to exactly one record whose primary identifier is the
catalog URL and whose secondary download-source is the video URL, with the
remaining fields unresolved; the same two halves in swapped order raise the
classification error instead. -/
theorem claim_C1 (env : Env) :
    get_simple_songs env ["https://youtube.com/watch?v=X|https://open.spotify.com/track/Y"] =
      .ok [Song.fromMissingUrlDownload "https://open.spotify.com/track/Y"
        "https://youtube.com/watch?v=X"] ∧
    (Song.fromMissingUrlDownload "https://open.spotify.com/track/Y"
      "https://youtube.com/watch?v=X").url = some "https://open.spotify.com/track/Y" ∧
    (Song.fromMissingUrlDownload "https://open.spotify.com/track/Y"
      "https://youtube.com/watch?v=X").download_url = some "https://youtube.com/watch?v=X" ∧
    (Song.fromMissingUrlDownload "https://open.spotify.com/track/Y"
      "https://youtube.com/watch?v=X").name = none ∧
    (Song.fromMissingUrlDownload "https://open.spotify.com/track/Y"
      "https://youtube.com/watch?v=X").track_number = none ∧
    (Song.fromMissingUrlDownload "https://open.spotify.com/track/Y"
      "https://youtube.com/watch?v=X").song_list = none ∧
    get_simple_songs env ["https://open.spotify.com/track/Y|https://youtube.com/watch?v=X"] =
      .error (.queryError incorrectFormatMsg) :=
  ⟨rfl, rfl, rfl, rfl, rfl, rfl, rfl⟩

/-- C2 (code bug): a bare `youtube.com/watch?v=` URL contains the
video-sharing pattern but neither the catalog pattern, nor `track`, nor the
separator; the spec says it must fall through rule 1 to the free-text rule,
but the code raises the classification error, because the `or` of
line 96 binds outside the `and` chain of lines 97-100.  A bare `youtu.be/`
URL, for which the `and` chain does guard the branch, falls through to
free-text search as the spec describes — the two video patterns behave
differently, exposing the precedence slip. -/
theorem claim_C2 :
    strContains "https://youtube.com/watch?v=abc" "youtube.com/watch?v=" = true ∧
    strContains "https://youtube.com/watch?v=abc" "open.spotify.com" = false ∧
    strContains "https://youtube.com/watch?v=abc" "|" = false ∧
    get_simple_songs envTriv ["https://youtube.com/watch?v=abc"] =
      .error (.queryError incorrectFormatMsg) ∧
    strContains "https://youtu.be/abc" "youtu.be/" = true ∧
    strContains "https://youtu.be/abc" "open.spotify.com" = false ∧
    strContains "https://youtu.be/abc" "|" = false ∧
    get_simple_songs envTriv ["https://youtu.be/abc"] =
      .ok [{ Song.empty with url := some "https://youtu.be/abc" }] :=
  ⟨rfl, rfl, rfl, rfl, rfl, rfl, rfl, rfl⟩

/-- C3 (counterexample): an input that splits into three parts on the
separator is accepted by the classification — no error is raised — as long
as the first two parts carry the markers, contradicting the claim that
every part count other than two raises the classification error. -/
theorem claim_C3_counterexample :
    get_simple_songs envTriv
        ["https://youtube.com/watch?v=X|https://open.spotify.com/track/Y|junk"] =
      .ok [Song.fromMissingUrlDownload "https://open.spotify.com/track/Y"
        "https://youtube.com/watch?v=X"] ∧
    (pySplit "https://youtube.com/watch?v=X|https://open.spotify.com/track/Y|junk" '|').length
      = 3 :=
  ⟨rfl, rfl⟩

/-- C3 (amended): for every input classified under the paired-link rule,
the validation inspects only the first two fragments of the split: it
raises the fixed-diagnostic classification error when the split has at most
one fragment, or the first fragment lacks a video marker, or the second
lacks the catalog marker; otherwise — including splits into three or more
fragments — it produces the record built from the first two fragments. -/
theorem claim_C3 (env : Env) (request : String) (h : pairedLinkCond request = true) :
    get_simple_songs env [request] =
      (if pairedLinkBad request then .error (.queryError incorrectFormatMsg)
       else .ok [Song.fromMissingUrlDownload ((pySplit request '|').getD 1 "")
         ((pySplit request '|').getD 0 "")]) := by
  by_cases hb : pairedLinkBad request = true
  · simp only [get_simple_songs, getSimpleSongsLoop, h, hb, if_true]
  · simp only [Bool.not_eq_true] at hb
    simp only [get_simple_songs, getSimpleSongsLoop, h, hb, if_true, if_false,
      Bool.false_eq_true, List.append_nil, List.map_nil, List.flatten_nil]

theorem claim_C3_witness :
    get_simple_songs envTriv ["https://youtube.com/watch?v=X|https://open.spotify.com/track/Y"] =
      .ok [Song.fromMissingUrlDownload "https://open.spotify.com/track/Y"
        "https://youtube.com/watch?v=X"] := by
  have h := claim_C3 envTriv
    "https://youtube.com/watch?v=X|https://open.spotify.com/track/Y" (by decide)
  simpa using h

theorem reinitWithList_found (song data : Song) (osl : SongList) (u : String) (i : Nat)
    (pn : Bool) (hd : data.song_list = some osl) (hs : song.song_list = some osl)
    (hu : song.url = some u) (hidx : listIndex u osl.urls = some i) :
    reinitWithList song data pn =
      (if pn then
        .ok (applyNumbering { data with song_list := some osl, list_position := some i } osl i)
       else .ok { data with song_list := some osl, list_position := some i }) := by
  have hpy : pyIndexOpt osl.urls song.url = .ok i := by
    rw [hu]
    simp [pyIndexOpt, hidx]
  unfold reinitWithList
  simp only [hd, hs, hpy]

/-- C4: refreshing a record that carries a collection back-reference, with
collection-based numbering requested, yields the merged record overridden
by the collection context: track number = position + 1, track count =
collection size, album name = collection name, disc number and count = 1,
and, for the Playlist variant, album-artist = playlist author and cover
reference = playlist cover.  The fresh catalog record fetched by
identifier carries no back-reference of its own. -/
theorem claim_C4 (env : Env) (song fresh : Song) (osl : SongList) (u : String) (i : Nat)
    (hsl : song.song_list = some osl)
    (hu : song.url = some u)
    (hfetch : env.fromUrl song.url = .ok fresh)
    (hfl : fresh.song_list = none)
    (hidx : listIndex u osl.urls = some i) :
    reinit_song env song true = .ok (reinitListResult song fresh osl i) ∧
    (reinitListResult song fresh osl i).track_number = some (i + 1) ∧
    (reinitListResult song fresh osl i).tracks_count = some osl.urls.length ∧
    (reinitListResult song fresh osl i).album_name = some osl.name ∧
    (reinitListResult song fresh osl i).disc_number = some 1 ∧
    (reinitListResult song fresh osl i).disc_count = some 1 ∧
    (osl.kind = SongListKind.playlist →
      (reinitListResult song fresh osl i).album_artist = osl.authorName ∧
      (reinitListResult song fresh osl i).cover_url = osl.coverUrl) := by
  have hd : (mergeSong song fresh).song_list = some osl := by
    simp [mergeSong, hsl, hfl, mergeOpt]
  have hmain : reinit_song env song true = .ok (reinitListResult song fresh osl i) := by
    unfold reinit_song
    rw [hfetch]
    show reinitWithList song (mergeSong song fresh) true = _
    rw [reinitWithList_found song (mergeSong song fresh) osl u i true hd hsl hu hidx]
    simp [reinitListResult]
  refine ⟨hmain, ?_, ?_, ?_, ?_, ?_, ?_⟩
  · by_cases hk : osl.kind = SongListKind.playlist <;>
      simp [reinitListResult, applyNumbering, hk]
  · by_cases hk : osl.kind = SongListKind.playlist <;>
      simp [reinitListResult, applyNumbering, hk]
  · by_cases hk : osl.kind = SongListKind.playlist <;>
      simp [reinitListResult, applyNumbering, hk]
  · simp [reinitListResult, applyNumbering]
  · simp [reinitListResult, applyNumbering]
  · intro hk
    constructor <;> simp [reinitListResult, applyNumbering, hk]

theorem claim_C4_witness :
    reinit_song envTriv songInPlaylist true =
      .ok (reinitListResult songInPlaylist Song.empty playlistC4 1) :=
  (claim_C4 envTriv songInPlaylist Song.empty playlistC4 "u2" 1 rfl rfl rfl rfl
    (by decide)).1

/-- C5: refreshing a record with no collection back-reference returns the
field-wise merge of the fresh catalog record over the existing one: every
field equals the fresh value when that value is non-null and the existing
value when the fresh value is null. -/
theorem claim_C5 (env : Env) (song fresh : Song) (pn : Bool)
    (hfetch : env.fromUrl song.url = .ok fresh)
    (hsl : song.song_list = none) :
    reinit_song env song pn = .ok
      { name := mergeOpt song.name fresh.name,
        artists := mergeOpt song.artists fresh.artists,
        album_name := mergeOpt song.album_name fresh.album_name,
        album_artist := mergeOpt song.album_artist fresh.album_artist,
        track_number := mergeOpt song.track_number fresh.track_number,
        tracks_count := mergeOpt song.tracks_count fresh.tracks_count,
        disc_number := mergeOpt song.disc_number fresh.disc_number,
        disc_count := mergeOpt song.disc_count fresh.disc_count,
        cover_url := mergeOpt song.cover_url fresh.cover_url,
        url := mergeOpt song.url fresh.url,
        download_url := mergeOpt song.download_url fresh.download_url,
        song_list := mergeOpt song.song_list fresh.song_list,
        list_position := mergeOpt song.list_position fresh.list_position } := by
  unfold reinit_song
  rw [hfetch]
  show reinitWithList song (mergeSong song fresh) pn = _
  unfold reinitWithList
  cases hf : fresh.song_list with
  | none =>
    have hd : (mergeSong song fresh).song_list = none := by
      simp [mergeSong, hsl, hf, mergeOpt]
    simp only [hd]
    simp [mergeSong, hf, hsl]
  | some sl =>
    have hd : (mergeSong song fresh).song_list = some sl := by
      simp [mergeSong, hsl, hf, mergeOpt]
    simp only [hd, hsl]
    simp [mergeSong, hf, hsl]

theorem claim_C5_witness :
    reinit_song envTitled songTitledOld false = .ok
      { name := mergeOpt songTitledOld.name freshTitled.name,
        artists := mergeOpt songTitledOld.artists freshTitled.artists,
        album_name := mergeOpt songTitledOld.album_name freshTitled.album_name,
        album_artist := mergeOpt songTitledOld.album_artist freshTitled.album_artist,
        track_number := mergeOpt songTitledOld.track_number freshTitled.track_number,
        tracks_count := mergeOpt songTitledOld.tracks_count freshTitled.tracks_count,
        disc_number := mergeOpt songTitledOld.disc_number freshTitled.disc_number,
        disc_count := mergeOpt songTitledOld.disc_count freshTitled.disc_count,
        cover_url := mergeOpt songTitledOld.cover_url freshTitled.cover_url,
        url := mergeOpt songTitledOld.url freshTitled.url,
        download_url := mergeOpt songTitledOld.download_url freshTitled.download_url,
        song_list := mergeOpt songTitledOld.song_list freshTitled.song_list,
        list_position := mergeOpt songTitledOld.list_position freshTitled.list_position } :=
  claim_C5 envTitled songTitledOld freshTitled false rfl rfl

/-- C7 (counterexample): refreshing a record with the numbering option
disabled does newly populate a numbering field when the fresh catalog data
carries it: the input record has no track number, the refreshed record has
track number 5 taken from the fresh data. -/
theorem claim_C7_counterexample :
    songUrlOnly.track_number = none ∧
    reinit_song envTrackFive songUrlOnly false = .ok songUrlTrackFive ∧
    songUrlTrackFive.track_number = some 5 :=
  ⟨rfl, rfl, rfl⟩

/-- C7 (amended): with the numbering option disabled, the numbering fields
of the refreshed record are exactly the merge of the input's and the fresh
catalog record's values (fresh wins when non-null): the collection block
never populates them, so a numbering field can only be newly populated by
the freshly fetched catalog data. -/
theorem claim_C7 (env : Env) (song fresh r : Song)
    (hfetch : env.fromUrl song.url = .ok fresh)
    (hok : reinit_song env song false = .ok r) :
    r.track_number = mergeOpt song.track_number fresh.track_number ∧
    r.tracks_count = mergeOpt song.tracks_count fresh.tracks_count ∧
    r.disc_number = mergeOpt song.disc_number fresh.disc_number ∧
    r.disc_count = mergeOpt song.disc_count fresh.disc_count := by
  have hok2 : reinitWithList song (mergeSong song fresh) false = .ok r := by
    have h := hok
    unfold reinit_song at h
    rw [hfetch] at h
    exact h
  unfold reinitWithList at hok2
  cases hd : (mergeSong song fresh).song_list with
  | none =>
    simp only [hd] at hok2
    have hr : r = mergeSong song fresh := by
      injection hok2 with h2
      exact h2.symm
    subst hr
    exact ⟨rfl, rfl, rfl, rfl⟩
  | some sl =>
    simp only [hd] at hok2
    cases hs : song.song_list with
    | none =>
      simp only [hs] at hok2
      have hr : r = mergeSong song fresh := by
        injection hok2 with h2
        exact h2.symm
      subst hr
      exact ⟨rfl, rfl, rfl, rfl⟩
    | some osl =>
      simp only [hs] at hok2
      cases hpy : pyIndexOpt ({ sl with kind := osl.kind } : SongList).urls song.url with
      | error e =>
        simp only [hpy] at hok2
        exact absurd hok2 (by simp)
      | ok pos =>
        simp only [hpy, Bool.false_eq_true, if_false] at hok2
        have hr : r = { mergeSong song fresh with
            song_list := some { sl with kind := osl.kind }, list_position := some pos } := by
          injection hok2 with h2
          exact h2.symm
        subst hr
        exact ⟨rfl, rfl, rfl, rfl⟩

theorem claim_C7_witness :
    songUrlTrackFive.track_number =
      mergeOpt songUrlOnly.track_number freshTrackFive.track_number ∧
    songUrlTrackFive.tracks_count =
      mergeOpt songUrlOnly.tracks_count freshTrackFive.tracks_count ∧
    songUrlTrackFive.disc_number =
      mergeOpt songUrlOnly.disc_number freshTrackFive.disc_number ∧
    songUrlTrackFive.disc_count =
      mergeOpt songUrlOnly.disc_count freshTrackFive.disc_count :=
  claim_C7 envTrackFive songUrlOnly freshTrackFive songUrlTrackFive rfl rfl

theorem refreshAll_error_of_mem (env : Env) (l : List Song) (s : Song) (e : PyErr)
    (hmem : s ∈ l) (herr : reinit_song env s false = .error e) :
    (refreshAll env l).isOk = false := by
  induction l with
  | nil => cases hmem
  | cons a rest ih =>
    rcases List.mem_cons.mp hmem with h | h
    · subst h
      simp [refreshAll, herr, Except.isOk, Except.toBool]
    · cases h1 : reinit_song env a false with
      | error e2 => simp [refreshAll, h1, Except.isOk, Except.toBool]
      | ok b =>
        have hrest := ih h
        cases h2 : refreshAll env rest with
        | error e2 => simp [refreshAll, h1, h2, Except.isOk, Except.toBool]
        | ok bs => simp [h2, Except.isOk, Except.toBool] at hrest

/-- C6 (counterexample): in a batch of three records where the middle
record's catalog lookup fails, `parse_query` does not return results for
the remaining records: the whole batch aborts with the lookup error, even
though the first record's refresh succeeds on its own. -/
theorem claim_C6_counterexample :
    get_simple_songs envFailB ["a", "b", "c"] =
      .ok [{ Song.empty with url := some "a" }, { Song.empty with url := some "b" },
        { Song.empty with url := some "c" }] ∧
    reinit_song envFailB { Song.empty with url := some "a" } false =
      .ok { Song.empty with url := some "a" } ∧
    reinit_song envFailB { Song.empty with url := some "b" } false =
      .error (.externalError "lookup failed") ∧
    parse_query envFailB ["a", "b", "c"] 2 = .error (.externalError "lookup failed") :=
  ⟨rfl, rfl, rfl, rfl⟩

/-- C6 (amended): failure of a single record's refresh aborts the whole
batch: whenever some classified song's refresh raises an error,
`parse_query` surfaces an error and returns no result list at all. -/
theorem claim_C6 (env : Env) (query : List String) (threads : Nat) (songs : List Song)
    (s : Song) (e : PyErr) (ht : 1 ≤ threads)
    (hq : get_simple_songs env query = .ok songs)
    (hmem : s ∈ songs)
    (herr : reinit_song env s false = .error e) :
    (parse_query env query threads).isOk = false := by
  have ht0 : (threads == 0) = false := by
    cases threads with
    | zero => omega
    | succ n => rfl
  unfold parse_query
  simp only [hq, ht0, Bool.false_eq_true, if_false]
  exact refreshAll_error_of_mem env songs s e hmem herr

theorem claim_C6_witness :
    (parse_query envFailB ["a", "b", "c"] 2).isOk = false :=
  claim_C6 envFailB ["a", "b", "c"] 2
    [{ Song.empty with url := some "a" }, { Song.empty with url := some "b" },
      { Song.empty with url := some "c" }]
    { Song.empty with url := some "b" } (.externalError "lookup failed")
    (by decide) rfl (by decide) rfl

/-- C9: the refreshed record list returned by `parse_query` does not depend
on the worker count: worker counts 1, 2 and 8 over the same input produce
literally the same list (hence the same multiset) of final records, since
each refresh depends only on its own record and `executor.map` yields the
results in input order. -/
theorem claim_C9 (env : Env) (query : List String) :
    parse_query env query 1 = parse_query env query 2 ∧
      parse_query env query 2 = parse_query env query 8 := by
  cases h : get_simple_songs env query <;> simp [parse_query, h]

theorem refreshAll_map_ok (env : Env) (l : List Song) :
    ∀ r : List Song, refreshAll env l = .ok r → refreshEach env l = r.map Except.ok := by
  induction l with
  | nil =>
    intro r h
    injection h with h2
    subst h2
    rfl
  | cons a rest ih =>
    intro r h
    unfold refreshAll at h
    revert h
    cases h1 : reinit_song env a false with
    | error e =>
      intro h
      exact absurd h (by simp)
    | ok b =>
      cases h2 : refreshAll env rest with
      | error e =>
        intro h
        exact absurd h (by simp)
      | ok bs =>
        intro h
        injection h with h3
        subst h3
        have hrest := ih bs h2
        unfold refreshEach at hrest
        unfold refreshEach
        rw [List.map_cons, List.map_cons, h1, hrest]

/-- C10: for every worker count ≥ 1, `parse_query` returns exactly one
refreshed record per classified song and preserves order: the pointwise
refresh of the list produced by `get_simple_songs` is exactly the returned
list (so the lengths agree and the i-th result is the refresh of the i-th
classified song). -/
theorem claim_C10 (env : Env) (query : List String) (threads : Nat)
    (songs results : List Song) (ht : 1 ≤ threads)
    (hq : get_simple_songs env query = .ok songs)
    (hp : parse_query env query threads = .ok results) :
    refreshEach env songs = results.map Except.ok := by
  have ht0 : (threads == 0) = false := by
    cases threads with
    | zero => omega
    | succ n => rfl
  have hp2 : refreshAll env songs = .ok results := by
    have h := hp
    unfold parse_query at h
    simp only [hq, ht0, Bool.false_eq_true, if_false] at h
    exact h
  exact refreshAll_map_ok env songs results hp2

theorem claim_C10_witness :
    refreshEach envTriv [{ Song.empty with url := some "hello" }] =
      [{ Song.empty with url := some "hello" }].map Except.ok :=
  claim_C10 envTriv ["hello"] 1 [{ Song.empty with url := some "hello" }]
    [{ Song.empty with url := some "hello" }] (by decide) rfl rfl

theorem dictGet_dictAppend_self (d : List (Option String × List String)) (k : Option String)
    (p : String) :
    dictGet (dictAppend d k p) k = some ((dictGet d k).getD [] ++ [p]) := by
  induction d with
  | nil => simp [dictGet, dictAppend]
  | cons kv rest ih =>
    obtain ⟨k2, ps⟩ := kv
    by_cases hk : k2 = k
    · subst hk
      simp [dictGet, dictAppend]
    · simp [dictGet, dictAppend, hk, ih]

theorem dictGet_dictAppend_ne (d : List (Option String × List String)) (k k2 : Option String)
    (p : String) (h : k2 ≠ k) :
    dictGet (dictAppend d k2 p) k = dictGet d k := by
  induction d with
  | nil => simp [dictGet, dictAppend, h]
  | cons kv rest ih =>
    obtain ⟨k3, ps⟩ := kv
    by_cases h3 : k3 = k2
    · subst h3
      simp [dictGet, dictAppend, h]
    · by_cases h4 : k3 = k
      · subst h4
        simp [dictGet, dictAppend, h3]
      · simp [dictGet, dictAppend, h3, h4, ih]

theorem gatherLoop_get (env : Env) (key : Option String) (paths : List String) :
    ∀ known, dictGet (gatherLoop env paths known) key =
      (match dictGet known key with
       | some ex => some (ex ++ paths.filter (scanKeyMatches env key))
       | none =>
         if (paths.filter (scanKeyMatches env key)).isEmpty then none
         else some (paths.filter (scanKeyMatches env key))) := by
  induction paths with
  | nil =>
    intro known
    cases hk : dictGet known key <;> simp [gatherLoop, hk]
  | cons p rest ih =>
    intro known
    cases hp : scanResolve env p with
    | none =>
      have hpred : scanKeyMatches env key p = false := by
        simp [scanKeyMatches, hp]
      simp only [gatherLoop, hp, List.filter_cons, hpred, Bool.false_eq_true, if_false]
      exact ih known
    | some song =>
      by_cases hk : song.url = key
      · have hpred : scanKeyMatches env key p = true := by
          simp [scanKeyMatches, hp, hk]
        have hstep := ih (dictAppend known song.url p)
        rw [hk] at hstep
        rw [dictGet_dictAppend_self known key p] at hstep
        simp only [gatherLoop, hp, hk, List.filter_cons, hpred, if_true]
        rw [hstep]
        cases hg : dictGet known key <;> simp [hg, List.isEmpty]
      · have hpred : scanKeyMatches env key p = false := by
          simp [scanKeyMatches, hp, hk]
        have hstep := ih (dictAppend known song.url p)
        rw [dictGet_dictAppend_ne known key song.url p hk] at hstep
        simp only [gatherLoop, hp, List.filter_cons, hpred, Bool.false_eq_true, if_false]
        exact hstep

/-- C8: characterization of the library scan.  For every identifier key,
the mapping returned by `gather_known_songs` holds exactly the scanned
files resolving to that key (through embedded metadata when it yields an
identifier, otherwise through the first filename-search result), in scan
order; keys no file resolves to are absent, so files that yield no
identifier by either method are omitted, and the scan is a total function
— it never raises.  In particular files with identifiers `A, A, B` produce
the mapping `A ↦ [path1, path2], B ↦ [path3]`. -/
theorem claim_C8 (env : Env) (output output_format : String) (key : Option String) :
    dictGet (gather_known_songs env output output_format) key =
      (if ((env.glob (baseDirOf output) output_format).filter
            (scanKeyMatches env key)).isEmpty then none
       else some ((env.glob (baseDirOf output) output_format).filter
            (scanKeyMatches env key))) := by
  have h := gatherLoop_get env key (env.glob (baseDirOf output) output_format) []
  simpa [gather_known_songs, dictGet] using h

end SpotdlSearch
